import Mathlib

/-!
Verification of the microgrid dispatch simulator of `Daan4/microgrid_lfa_opt`.

The core of the repository is the priority-based dispatch loop that appears in
`calculate_setpoints_priority` (`microgrid_pf.py`, lines 274-330) and, with the
battery capacity as a parameter, verbatim in `constraint`
(`optimize_microgrid.py` lines 43-83 and `Final_Sys_Opt.py` lines 42-82).
Floating point numbers are embedded as rationals.  The apparent load magnitude
`s_load = sqrt(p**2 + q**2)` is computed upstream of the dispatch branching and
enters the embedding as a plain nonnegative scalar input.
-/

namespace Microgrid

/-- Battery round-trip efficiency, `BATT_EFFICIENCY = 0.9` in `microgrid_pf.py`. -/
def BATT_EFFICIENCY : ℚ := 0.9

/-- Battery energy capacity, `BATT_NOM_ENERGY = 2209` kWh in `microgrid_pf.py`. -/
def BATT_NOM_ENERGY : ℚ := 2209

/-- Initial state of charge, `BATT_SOC_INITIAL = BATT_NOM_ENERGY/2`. -/
def BATT_SOC_INITIAL : ℚ := BATT_NOM_ENERGY / 2

/-- `GRID_AVAILABLE_HOURS` from `microgrid_pf.py` / `optimize_microgrid.py`. -/
def GRID_AVAILABLE_HOURS : List ℕ := [1, 2, 3, 4, 5, 10, 11, 12, 13, 17, 18, 19, 20, 21]

/-- The per-timestep dispatch decision: apparent powers assigned to PV, battery
(positive = discharging, negative = charging) and the diesel generator. -/
structure Decision where
  sPv : ℚ
  sBatt : ℚ
  sDiesel : ℚ

/-- One timestep of the priority dispatch rule, translated from the loop body of
`calculate_setpoints_priority` in `microgrid_pf.py` (lines 280-303).  The same
branching appears with `cap` the candidate battery size in `constraint` of
`optimize_microgrid.py` (lines 49-72) and `Final_Sys_Opt.py` (lines 48-71).
`soc` is the state of charge entering the timestep, `sLoad` the apparent load
magnitude, `pv` the PV production `pv_data[dt]`, and `hour` the hour `dt.hour`. -/
def dispatchDecision (cap eff : ℚ) (gridHours : List ℕ) (soc sLoad pv : ℚ)
    (hour : ℕ) : Decision :=
  if pv > sLoad then
    -- Overproduction of PV
    if soc ≤ cap - (pv - sLoad) * eff then
      -- pv overproduction used to charge battery if there is space in the battery
      { sPv := pv, sBatt := -(pv - sLoad), sDiesel := 0 }
    else
      -- pv overproduction wasted by curtailment
      { sPv := sLoad, sBatt := 0, sDiesel := 0 }
  else if pv < sLoad then
    -- Gap between pv and load is filled based on priority
    if soc > 0.2 * cap + (sLoad - pv) / eff then
      -- battery can be used while staying above 20% soc
      { sPv := pv, sBatt := sLoad - pv, sDiesel := 0 }
    else if hour ∉ gridHours then
      -- Grid not available: remaining battery (under 20% soc) + diesel genset
      if soc ≥ (sLoad - pv) / eff then
        -- Battery can be used while staying above 0 soc
        { sPv := pv, sBatt := sLoad - pv, sDiesel := 0 }
      else
        -- diesel generator kicks in and charges battery with remainder
        if min 750 (max 250 (sLoad - pv)) > sLoad - pv then
          { sPv := pv, sBatt := sLoad - pv - min 750 (max 250 (sLoad - pv)),
            sDiesel := min 750 (max 250 (sLoad - pv)) }
        else
          { sPv := pv, sBatt := 0, sDiesel := min 750 (max 250 (sLoad - pv)) }
    else
      -- grid available: the slack grid covers the gap
      { sPv := pv, sBatt := 0, sDiesel := 0 }
  else
    { sPv := pv, sBatt := 0, sDiesel := 0 }

/-- The `# adjust soc` update of `calculate_setpoints_priority` (lines 305-309):
discharge divided by the efficiency, charge multiplied by it. -/
def socUpdate (eff soc sBatt : ℚ) : ℚ :=
  if sBatt ≥ 0 then soc - sBatt / eff else soc - sBatt * eff

/-- The hard clamp `_soc = min(_soc, cap); _soc = max(0, _soc)` (lines 310-311). -/
def clampSoc (cap x : ℚ) : ℚ := max 0 (min x cap)

/-- State of charge after one full timestep: decision, soc adjustment, clamp. -/
def stepSoc (cap eff : ℚ) (gridHours : List ℕ) (soc sLoad pv : ℚ) (hour : ℕ) : ℚ :=
  clampSoc cap (socUpdate eff soc (dispatchDecision cap eff gridHours soc sLoad pv hour).sBatt)

/-- The grid is modelled as the slack generator of the pypsa network
(`initialize_network`, line 134): it supplies the residual of the load not met
by PV, battery and diesel. -/
def gridOut (sLoad : ℚ) (d : Decision) : ℚ := sLoad - d.sPv - d.sBatt - d.sDiesel

/-- Input of one timestep: apparent load magnitude, PV production, hour of day. -/
structure Step where
  sLoad : ℚ
  pv : ℚ
  hour : ℕ

/-- The post-update state-of-charge trace of a dispatch run over a list of
timestep inputs, starting from state of charge `soc`. -/
def runSoc (cap eff : ℚ) (gridHours : List ℕ) (soc : ℚ) : List Step → List ℚ
  | [] => []
  | i :: rest =>
    stepSoc cap eff gridHours soc i.sLoad i.pv i.hour ::
      runSoc cap eff gridHours (stepSoc cap eff gridHours soc i.sLoad i.pv i.hour) rest

/-- `calculate_diesel_fuel_usage` from `lib.py` (lines 122-130, scalar branch),
including the literal `0.5 <=` lower bound of the third branch exactly as
written in the source.  Python's chained comparison `a <= v < b` is
`a ≤ v ∧ v < b`. -/
def calculate_diesel_fuel_usage (s : ℚ) : ℚ :=
  if 0 ≤ s ∧ s < 0.25 * 750 then
    s / (0.25 * 750) * 62
  else if 0.25 * 750 ≤ s ∧ s < 0.5 * 750 then
    (s - 0.25 * 750) / (0.25 * 750) * (104 - 62) + 62
  else if 0.5 ≤ s ∧ s < 0.75 * 750 then
    (s - 0.5 * 750) / (0.25 * 750) * (149 - 104) + 104
  else
    (s - 0.75 * 750) / (0.25 * 750) * (202 - 149) + 149

/-- Python float division: raises `ZeroDivisionError` when the divisor is zero,
so the embedding returns `none` there. -/
def pyDiv (a b : ℚ) : Option ℚ := if b = 0 then none else some (a / b)

/-- The setpoint emission of `calculate_setpoints_priority` (lines 313-320):
each apparent-power decision scalar is scaled by `s_x / s_load` against the
load's `(p, q)` pair.  The six emitted values are
`[p_pv, q_pv, p_batt, q_batt, p_diesel, q_diesel]`; the division by `s_load`
is Python float division, which fails on a zero divisor. -/
def emitSetpoints (sLoad loadP loadQ : ℚ) (d : Decision) : Option (List ℚ) := do
  let a ← pyDiv d.sPv sLoad
  let b ← pyDiv d.sBatt sLoad
  let c ← pyDiv d.sDiesel sLoad
  pure [a * loadP, a * loadQ, b * loadP, b * loadQ, c * loadP, c * loadQ]

/-- C2: at every timestep the dispatched powers balance the load exactly:
PV + battery + diesel + grid equals the apparent load magnitude, where the grid
(the slack generator) supplies the residual. -/
theorem dispatch_energy_balance (cap eff : ℚ) (gridHours : List ℕ)
    (soc sLoad pv : ℚ) (hour : ℕ) :
    (dispatchDecision cap eff gridHours soc sLoad pv hour).sPv
      + (dispatchDecision cap eff gridHours soc sLoad pv hour).sBatt
      + (dispatchDecision cap eff gridHours soc sLoad pv hour).sDiesel
      + gridOut sLoad (dispatchDecision cap eff gridHours soc sLoad pv hour)
      = sLoad := by
  unfold gridOut
  ring

/-- C1: at every timestep of a dispatch run the post-update state of charge
satisfies `0 ≤ soc ≤ cap`: the soc is updated once per timestep and then
hard-clamped to `[0, cap]`. -/
theorem soc_clamp_invariant (cap eff : ℚ) (gridHours : List ℕ) (soc0 : ℚ)
    (inputs : List Step) (hcap : 0 ≤ cap) :
    ∀ x ∈ runSoc cap eff gridHours soc0 inputs, 0 ≤ x ∧ x ≤ cap := by
  induction inputs generalizing soc0 with
  | nil => intro x hx; simp [runSoc] at hx
  | cons i rest ih =>
    intro x hx
    rw [runSoc, List.mem_cons] at hx
    rcases hx with h | h
    · subst h
      unfold stepSoc clampSoc
      exact ⟨le_max_left 0 _, max_le hcap (min_le_right _ _)⟩
    · exact ih _ x h

/-- C1 witness: a concrete one-step run with capacity 1000, efficiency 1,
initial soc 500 and a 100 kVA load discharges the battery to 400, which the
invariant places inside `[0, 1000]`. -/
theorem soc_clamp_invariant_witness : 0 ≤ (400 : ℚ) ∧ (400 : ℚ) ≤ 1000 :=
  soc_clamp_invariant 1000 1 GRID_AVAILABLE_HOURS 500 [⟨100, 0, 0⟩] (by norm_num)
    400 (by norm_num [runSoc, stepSoc, clampSoc, socUpdate, dispatchDecision,
      GRID_AVAILABLE_HOURS])

/-- C3 counterexample: at hour 0 (not grid-available), with a depleted battery
and a 1000 kVA load exceeding the 750 kVA diesel maximum, the residual drawn
from the slack grid is 250 kVA, not 0: the claim that `grid_out = 0` whenever
the hour is not grid-available is false on the code. -/
theorem grid_off_schedule_counterexample :
    (0 : ℕ) ∉ GRID_AVAILABLE_HOURS ∧
    gridOut 1000 (dispatchDecision BATT_NOM_ENERGY BATT_EFFICIENCY
      GRID_AVAILABLE_HOURS 0 1000 0 0) = 250 ∧
    gridOut 1000 (dispatchDecision BATT_NOM_ENERGY BATT_EFFICIENCY
      GRID_AVAILABLE_HOURS 0 1000 0 0) ≠ 0 := by
  exact ⟨by decide,
    by norm_num [dispatchDecision, gridOut, GRID_AVAILABLE_HOURS, BATT_NOM_ENERGY,
      BATT_EFFICIENCY],
    by norm_num [dispatchDecision, gridOut, GRID_AVAILABLE_HOURS, BATT_NOM_ENERGY,
      BATT_EFFICIENCY]⟩

/-- C3 amended: whenever the hour is not grid-available and the shortfall
`sLoad - pv` does not exceed the diesel maximum of 750 kVA, the grid supplies
zero power. -/
theorem grid_off_schedule_amended (cap eff : ℚ) (gridHours : List ℕ)
    (soc sLoad pv : ℚ) (hour : ℕ) (hhour : hour ∉ gridHours)
    (hgap : sLoad - pv ≤ 750) :
    gridOut sLoad (dispatchDecision cap eff gridHours soc sLoad pv hour) = 0 := by
  have hmin : sLoad - pv ≤ min 750 (max 250 (sLoad - pv)) :=
    le_min hgap (le_max_right 250 (sLoad - pv))
  unfold dispatchDecision gridOut
  split_ifs with h1 h2 h3 h4 h5 h6 <;> simp <;> linarith

/-- C3 amended witness: hour 0 is not grid-available and the 100 kVA shortfall
is within the diesel range, so the grid supplies zero. -/
theorem grid_off_schedule_amended_witness :
    gridOut 100 (dispatchDecision 2209 (9/10) GRID_AVAILABLE_HOURS 0 100 0 0) = 0 :=
  grid_off_schedule_amended 2209 (9/10) GRID_AVAILABLE_HOURS 0 100 0 0
    (by decide) (by norm_num)

/-- C8: whenever the diesel output of a timestep is nonzero it lies within
`[250, 750]`, and it equals the shortfall clamped by `max` with the lower bound
followed by `min` with the upper bound. -/
theorem diesel_clamp_bounds (cap eff : ℚ) (gridHours : List ℕ)
    (soc sLoad pv : ℚ) (hour : ℕ) (d : Decision)
    (hd : d = dispatchDecision cap eff gridHours soc sLoad pv hour)
    (hnz : d.sDiesel ≠ 0) :
    250 ≤ d.sDiesel ∧ d.sDiesel ≤ 750 ∧
      d.sDiesel = min 750 (max 250 (sLoad - pv)) := by
  subst hd
  unfold dispatchDecision at *
  split_ifs at * <;>
    first
    | exact absurd rfl hnz
    | exact ⟨le_min (by norm_num) (le_max_left 250 (sLoad - pv)),
        min_le_left 750 (max 250 (sLoad - pv)), rfl⟩

/-- C8 witness: with a depleted battery, a 1000 kVA load off the grid schedule
activates the diesel generator at 750 kVA, inside `[250, 750]`. -/
theorem diesel_clamp_bounds_witness :
    250 ≤ (dispatchDecision 2209 (9/10) GRID_AVAILABLE_HOURS 0 1000 0 0).sDiesel :=
  (diesel_clamp_bounds 2209 (9/10) GRID_AVAILABLE_HOURS 0 1000 0 0 _ rfl
    (by norm_num [dispatchDecision, GRID_AVAILABLE_HOURS])).1

/-- C10: diesel generation and battery discharge are mutually exclusive within
a timestep: whenever diesel output is positive the battery power is `≤ 0`. -/
theorem diesel_excludes_discharge (cap eff : ℚ) (gridHours : List ℕ)
    (soc sLoad pv : ℚ) (hour : ℕ) (d : Decision)
    (hd : d = dispatchDecision cap eff gridHours soc sLoad pv hour)
    (hpos : 0 < d.sDiesel) : d.sBatt ≤ 0 := by
  subst hd
  unfold dispatchDecision at *
  split_ifs at * <;> simp_all
  linarith

/-- C10 witness: at a timestep where the diesel generator runs at 750 kVA the
battery power is not positive. -/
theorem diesel_excludes_discharge_witness :
    (dispatchDecision 2209 (9/10) GRID_AVAILABLE_HOURS 0 1000 0 0).sBatt ≤ 0 :=
  diesel_excludes_discharge 2209 (9/10) GRID_AVAILABLE_HOURS 0 1000 0 0 _ rfl
    (by norm_num [dispatchDecision, GRID_AVAILABLE_HOURS])

/-- C4: at a timestep with a PV shortfall, the hour off the grid schedule and
the battery unable to cover the shortfall while staying above 20% soc: if the
soc is at least shortfall/efficiency the battery supplies the full shortfall
and diesel stays 0; otherwise the diesel generator activates at the shortfall
clamped into `[250, 750]` and, exactly when the clamped diesel output exceeds
the shortfall, the battery charges with the excess. -/
theorem diesel_shortfall_branch (cap eff : ℚ) (gridHours : List ℕ)
    (soc sLoad pv : ℚ) (hour : ℕ) (d : Decision)
    (hd : d = dispatchDecision cap eff gridHours soc sLoad pv hour)
    (hpv : pv < sLoad)
    (hb : ¬ soc > 0.2 * cap + (sLoad - pv) / eff)
    (hg : hour ∉ gridHours) :
    (soc ≥ (sLoad - pv) / eff → d.sBatt = sLoad - pv ∧ d.sDiesel = 0) ∧
    (¬ soc ≥ (sLoad - pv) / eff →
      d.sDiesel = min 750 (max 250 (sLoad - pv)) ∧
      250 ≤ d.sDiesel ∧ d.sDiesel ≤ 750 ∧
      (d.sDiesel > sLoad - pv → d.sBatt = -(d.sDiesel - (sLoad - pv))) ∧
      (¬ d.sDiesel > sLoad - pv → d.sBatt = 0)) := by
  subst hd
  unfold dispatchDecision
  rw [if_neg (by linarith), if_pos hpv, if_neg hb, if_pos hg]
  constructor
  · intro hsoc
    rw [if_pos hsoc]
    exact ⟨rfl, rfl⟩
  · intro hsoc
    rw [if_neg hsoc]
    split_ifs with hex
    · refine ⟨rfl, le_min (by norm_num) (le_max_left 250 (sLoad - pv)),
        min_le_left 750 (max 250 (sLoad - pv)), ?_, ?_⟩
      · intro _; ring
      · intro h; exact absurd hex h
    · refine ⟨rfl, le_min (by norm_num) (le_max_left 250 (sLoad - pv)),
        min_le_left 750 (max 250 (sLoad - pv)), ?_, fun _ => rfl⟩
      intro h; exact absurd h hex

/-- C4 witness: with an empty battery, a 100 kVA shortfall off the grid
schedule activates the diesel generator at the 250 kVA minimum. -/
theorem diesel_shortfall_branch_witness :
    (dispatchDecision 2209 (9/10) GRID_AVAILABLE_HOURS 0 100 0 0).sDiesel = 250 := by
  have h := (diesel_shortfall_branch 2209 (9/10) GRID_AVAILABLE_HOURS 0 100 0 0 _
    rfl (by norm_num) (by norm_num) (by decide)).2 (by norm_num)
  rw [h.1]
  norm_num

/-- C7 counterexample: when PV production (150 kVA) exceeds the load (100 kVA)
and the surplus is routed into the battery, the emitted PV apparent power is
the full 150 kVA potential, which exceeds the load: the claim `s_pv ≤ s_load`
at every timestep is false on the code. -/
theorem pv_exceeds_load_counterexample :
    (dispatchDecision BATT_NOM_ENERGY BATT_EFFICIENCY GRID_AVAILABLE_HOURS
      BATT_SOC_INITIAL 100 150 12).sPv = 150 ∧
    ¬ (dispatchDecision BATT_NOM_ENERGY BATT_EFFICIENCY GRID_AVAILABLE_HOURS
      BATT_SOC_INITIAL 100 150 12).sPv ≤ 100 := by
  norm_num [dispatchDecision, GRID_AVAILABLE_HOURS, BATT_NOM_ENERGY,
    BATT_EFFICIENCY, BATT_SOC_INITIAL]

/-- C7 amended: the PV dispatch decision is nonnegative and never exceeds
`max sLoad pv`; it exceeds the load only in the battery-charging branch, where
it equals the full PV potential and the surplus is exactly the battery charge
(so the net PV power toward the load is still `sLoad`). -/
theorem pv_served_bounds (cap eff : ℚ) (gridHours : List ℕ)
    (soc sLoad pv : ℚ) (hour : ℕ) (d : Decision)
    (hd : d = dispatchDecision cap eff gridHours soc sLoad pv hour)
    (hl : 0 ≤ sLoad) (hp : 0 ≤ pv) :
    0 ≤ d.sPv ∧ d.sPv ≤ max sLoad pv ∧
      (sLoad < d.sPv → d.sPv = pv ∧ d.sBatt = -(pv - sLoad)) := by
  subst hd
  unfold dispatchDecision
  split_ifs with h1 h2 h3 h4 h5 h6 <;>
    refine ⟨by simp [hl, hp], by simp, ?_⟩ <;> intro hlt <;> simp_all

/-- C7 amended witness: at the overproduction timestep the PV decision stays
within `[0, max(load, potential)]`. -/
theorem pv_served_bounds_witness :
    0 ≤ (dispatchDecision BATT_NOM_ENERGY BATT_EFFICIENCY GRID_AVAILABLE_HOURS
      BATT_SOC_INITIAL 100 150 12).sPv :=
  (pv_served_bounds BATT_NOM_ENERGY BATT_EFFICIENCY GRID_AVAILABLE_HOURS
    BATT_SOC_INITIAL 100 150 12 _ rfl (by norm_num) (by norm_num)).1

/-- C9 counterexample: with `battery_capacity = 0`, a 100 kVA load off the grid
schedule still activates the diesel generator at its 250 kVA minimum and the
excess is assigned to the battery, so the battery power is `-150`, not `0`:
the claim that the battery power stays 0 when the capacity is 0 is false on
the code. -/
theorem zero_capacity_battery_counterexample :
    (dispatchDecision 0 (9/10) GRID_AVAILABLE_HOURS 0 100 0 0).sBatt = -150 ∧
    (dispatchDecision 0 (9/10) GRID_AVAILABLE_HOURS 0 100 0 0).sBatt ≠ 0 := by
  norm_num [dispatchDecision, GRID_AVAILABLE_HOURS]

/-- C9 amended: with `battery_capacity = 0` the state of charge stays 0 at
every timestep of a run, no branch raises an error, and the battery power is
never positive; it is nonzero only in the off-schedule diesel branch, where it
equals the (negative) shortfall minus the clamped diesel output. -/
theorem zero_capacity_battery_amended (eff : ℚ) (gridHours : List ℕ)
    (soc0 : ℚ) (inputs : List Step) (sLoad pv : ℚ) (hour : ℕ)
    (heff : 0 < eff) :
    (∀ x ∈ runSoc 0 eff gridHours soc0 inputs, x = 0) ∧
    (dispatchDecision 0 eff gridHours 0 sLoad pv hour).sBatt ≤ 0 ∧
    ((dispatchDecision 0 eff gridHours 0 sLoad pv hour).sBatt ≠ 0 →
      hour ∉ gridHours ∧
      (dispatchDecision 0 eff gridHours 0 sLoad pv hour).sDiesel > sLoad - pv ∧
      (dispatchDecision 0 eff gridHours 0 sLoad pv hour).sBatt
        = sLoad - pv - (dispatchDecision 0 eff gridHours 0 sLoad pv hour).sDiesel) := by
  refine ⟨?_, ?_⟩
  · induction inputs generalizing soc0 with
    | nil => intro x hx; simp [runSoc] at hx
    | cons i rest ih =>
      intro x hx
      rw [runSoc, List.mem_cons] at hx
      rcases hx with h | h
      · subst h
        unfold stepSoc clampSoc
        exact max_eq_left (min_le_right _ 0)
      · exact ih _ x h
  · unfold dispatchDecision
    by_cases h1 : pv > sLoad
    · rw [if_pos h1, if_neg (by nlinarith [mul_pos (sub_pos.mpr h1) heff])]
      exact ⟨le_refl 0, fun h => absurd rfl h⟩
    · rw [if_neg h1]
      by_cases h3 : pv < sLoad
      · have hdiv : 0 < (sLoad - pv) / eff := div_pos (sub_pos.mpr h3) heff
        rw [if_pos h3, if_neg (not_lt.mpr (by linarith))]
        by_cases h5 : hour ∉ gridHours
        · rw [if_pos h5, if_neg (not_le.mpr hdiv)]
          by_cases h7 : min 750 (max 250 (sLoad - pv)) > sLoad - pv
          · rw [if_pos h7]
            exact ⟨by simp only []; linarith, fun _ => ⟨h5, h7, rfl⟩⟩
          · rw [if_neg h7]
            exact ⟨le_refl 0, fun h => absurd rfl h⟩
        · rw [if_neg h5]
          exact ⟨le_refl 0, fun h => absurd rfl h⟩
      · rw [if_neg h3]
        exact ⟨le_refl 0, fun h => absurd rfl h⟩

/-- C9 amended witness: the concrete zero-capacity run has zero battery
discharge at the off-schedule timestep. -/
theorem zero_capacity_battery_amended_witness :
    (dispatchDecision 0 (9/10) GRID_AVAILABLE_HOURS 0 100 0 0).sBatt ≤ 0 :=
  (zero_capacity_battery_amended (9/10) GRID_AVAILABLE_HOURS 0 [] 100 0 0
    (by norm_num)).2.1

/-- C6: at a timestep with zero apparent load the setpoint emission of
`calculate_setpoints_priority` divides the decision scalars by `s_load = 0`
and fails with a division error instead of emitting all-zero setpoints: the
code lacks the special case the specification requires. -/
theorem zero_load_division_bug :
    emitSetpoints 0 0 0 (dispatchDecision BATT_NOM_ENERGY BATT_EFFICIENCY
      GRID_AVAILABLE_HOURS BATT_SOC_INITIAL 0 0 0) = none := by
  simp [emitSetpoints, pyDiv]

/-- On `[0, 25%)` of rated capacity the fuel curve interpolates between
`(0, 0)` and the 25% calibration point. -/
lemma fuel_eq1 (s : ℚ) (h0 : 0 ≤ s) (h1 : s < 0.25 * 750) :
    calculate_diesel_fuel_usage s = s / (0.25 * 750) * 62 := by
  unfold calculate_diesel_fuel_usage
  rw [if_pos ⟨h0, h1⟩]

/-- On `[25%, 50%)` the fuel curve interpolates between the 25% and 50%
calibration points. -/
lemma fuel_eq2 (s : ℚ) (h0 : 0.25 * 750 ≤ s) (h1 : s < 0.5 * 750) :
    calculate_diesel_fuel_usage s
      = (s - 0.25 * 750) / (0.25 * 750) * (104 - 62) + 62 := by
  unfold calculate_diesel_fuel_usage
  rw [if_neg (by rintro ⟨h2, h3⟩; norm_num at h0 h3; linarith), if_pos ⟨h0, h1⟩]

/-- On `[50%, 75%)` the fuel curve interpolates between the 50% and 75%
calibration points: the literal `0.5 <=` lower bound of the third branch of
the source is subsumed there by the failure of the first two branch guards. -/
lemma fuel_eq3 (s : ℚ) (h0 : 0.5 * 750 ≤ s) (h1 : s < 0.75 * 750) :
    calculate_diesel_fuel_usage s
      = (s - 0.5 * 750) / (0.25 * 750) * (149 - 104) + 104 := by
  unfold calculate_diesel_fuel_usage
  rw [if_neg (by rintro ⟨h2, h3⟩; norm_num at h0 h3; linarith),
    if_neg (by rintro ⟨h2, h3⟩; norm_num at h0 h3; linarith),
    if_pos ⟨by norm_num at h0 ⊢; linarith, h1⟩]

/-- From 75% upward the fuel curve extrapolates the slope between the 75% and
100% calibration points. -/
lemma fuel_eq4 (s : ℚ) (h0 : 0.75 * 750 ≤ s) :
    calculate_diesel_fuel_usage s
      = (s - 0.75 * 750) / (0.25 * 750) * (202 - 149) + 149 := by
  unfold calculate_diesel_fuel_usage
  rw [if_neg (by rintro ⟨h2, h3⟩; norm_num at h0 h3; linarith),
    if_neg (by rintro ⟨h2, h3⟩; norm_num at h0 h3; linarith),
    if_neg (by rintro ⟨h2, h3⟩; norm_num at h0 h3; linarith)]

/-- The fuel curve is monotonically non-decreasing on nonnegative powers. -/
lemma fuel_mono (a b : ℚ) (ha : 0 ≤ a) (hab : a ≤ b) :
    calculate_diesel_fuel_usage a ≤ calculate_diesel_fuel_usage b := by
  have hb : 0 ≤ b := le_trans ha hab
  by_cases ha1 : a < 0.25 * 750
  · rw [fuel_eq1 a ha ha1]
    by_cases hb1 : b < 0.25 * 750
    · rw [fuel_eq1 b hb hb1]
      norm_num
      linarith
    · by_cases hb2 : b < 0.5 * 750
      · rw [fuel_eq2 b (not_lt.mp hb1) hb2]
        norm_num at ha1 hb1 ⊢
        linarith
      · by_cases hb3 : b < 0.75 * 750
        · rw [fuel_eq3 b (not_lt.mp hb2) hb3]
          norm_num at ha1 hb2 ⊢
          linarith
        · rw [fuel_eq4 b (not_lt.mp hb3)]
          norm_num at ha1 hb3 ⊢
          linarith
  · by_cases ha2 : a < 0.5 * 750
    · rw [fuel_eq2 a (not_lt.mp ha1) ha2]
      by_cases hb1 : b < 0.25 * 750
      · exfalso
        norm_num at ha1 hb1
        linarith
      · by_cases hb2 : b < 0.5 * 750
        · rw [fuel_eq2 b (not_lt.mp hb1) hb2]
          norm_num
          linarith
        · by_cases hb3 : b < 0.75 * 750
          · rw [fuel_eq3 b (not_lt.mp hb2) hb3]
            norm_num at ha2 hb2 ⊢
            linarith
          · rw [fuel_eq4 b (not_lt.mp hb3)]
            norm_num at ha2 hb3 ⊢
            linarith
    · by_cases ha3 : a < 0.75 * 750
      · rw [fuel_eq3 a (not_lt.mp ha2) ha3]
        by_cases hb1 : b < 0.25 * 750
        · exfalso
          norm_num at ha2 hb1
          linarith
        · by_cases hb2 : b < 0.5 * 750
          · exfalso
            norm_num at ha2 hb2
            linarith
          · by_cases hb3 : b < 0.75 * 750
            · rw [fuel_eq3 b (not_lt.mp hb2) hb3]
              norm_num
              linarith
            · rw [fuel_eq4 b (not_lt.mp hb3)]
              norm_num at ha3 hb3 ⊢
              linarith
      · rw [fuel_eq4 a (not_lt.mp ha3)]
        by_cases hb3 : b < 0.75 * 750
        · exfalso
          norm_num at ha3 hb3
          linarith
        · rw [fuel_eq4 b (not_lt.mp hb3)]
          norm_num
          linarith

/-- C5: the diesel fuel-usage curve is monotonically non-decreasing on
nonnegative powers, passes exactly through the four calibration points
`62 / 104 / 149 / 202` litres per hour at `25 / 50 / 75 / 100%` of the 750 kVA
rating, interpolates linearly between `(0, 0)`, the calibration points, and
extrapolates the 75-100% slope above rated capacity. -/
theorem fuel_curve_properties :
    (∀ a b : ℚ, 0 ≤ a → a ≤ b →
      calculate_diesel_fuel_usage a ≤ calculate_diesel_fuel_usage b) ∧
    calculate_diesel_fuel_usage (0.25 * 750) = 62 ∧
    calculate_diesel_fuel_usage (0.5 * 750) = 104 ∧
    calculate_diesel_fuel_usage (0.75 * 750) = 149 ∧
    calculate_diesel_fuel_usage 750 = 202 ∧
    (∀ v : ℚ, 0 ≤ v → v < 0.25 * 750 →
      calculate_diesel_fuel_usage v = v / (0.25 * 750) * 62) ∧
    (∀ v : ℚ, 0.25 * 750 ≤ v → v < 0.5 * 750 →
      calculate_diesel_fuel_usage v
        = (v - 0.25 * 750) / (0.25 * 750) * (104 - 62) + 62) ∧
    (∀ v : ℚ, 0.5 * 750 ≤ v → v < 0.75 * 750 →
      calculate_diesel_fuel_usage v
        = (v - 0.5 * 750) / (0.25 * 750) * (149 - 104) + 104) ∧
    (∀ v : ℚ, 0.75 * 750 ≤ v →
      calculate_diesel_fuel_usage v
        = (v - 0.75 * 750) / (0.25 * 750) * (202 - 149) + 149) := by
  refine ⟨fuel_mono, ?_, ?_, ?_, ?_, fuel_eq1, fuel_eq2, fuel_eq3, fuel_eq4⟩
  · rw [fuel_eq2 _ (le_refl _) (by norm_num)]
    norm_num
  · rw [fuel_eq3 _ (le_refl _) (by norm_num)]
    norm_num
  · rw [fuel_eq4 _ (le_refl _)]
    norm_num
  · rw [fuel_eq4 _ (by norm_num)]
    norm_num

/-- C5 witness: the fuel curve is non-decreasing from 100 kVA to 200 kVA. -/
theorem fuel_curve_properties_witness :
    calculate_diesel_fuel_usage 100 ≤ calculate_diesel_fuel_usage 200 :=
  fuel_curve_properties.1 100 200 (by norm_num) (by norm_num)

end Microgrid
